import Mathlib

/-!
Shallow embedding of the Budgeteer forecasting-and-insights core
(`forecast.py`, `insights_engine.py`).

Conventions of the embedding:
* dates are proleptic-Gregorian day ordinals (`Int`, the value of Python's
  `date.toordinal()`); `timedelta(days = k)` becomes `+ k`;
* monetary amounts are exact rationals (`ℚ`) standing for the source's
  floats; real-valued quantities produced by `np.log` / square roots live
  in `ℝ`;
* the database session reads (`select(Tx).where(...)`) become filters over
  an explicit list of transactions passed as an argument;
* the external ML regressors (scikit-learn `RandomForestRegressor`,
  `catboost_predict`, `neuralprophet_predict`) and the pseudo-random
  normal sampler `np.random.normal` are opaque libraries: they are
  modelled as an `Oracles` parameter, with their shape contract (one
  prediction per queried future index) as an explicit hypothesis.
-/

/-- A transaction row (`dbmodels.Tx`): signed amount (positive = income,
negative = expense), category label, recurring metadata. -/
structure Tx where
  id : Nat
  user_id : Nat
  tx_date : Int
  amount : ℚ
  label : String
  recurring : Bool := false
  series_id : Option Nat := none
deriving DecidableEq, Repr

/-- A budget goal row (`dbmodels.BudgetGoal`): `month` is the ordinal of
the first day of the month the goal applies to. -/
structure BudgetGoal where
  user_id : Nat
  month : Int
  amount : ℚ
deriving DecidableEq, Repr

/-- Calendar facts used by the insights engine: ordinal of the first day
of the month containing a date (`d.replace(day=1)`), ordinal of the last
day of that month (`(month + timedelta(days=32)).replace(day=1) -
timedelta(days=1)`), and the day-of-month (`d.day`).  The engine consumes
these as given; theorems quantify over them. -/
structure Calendar where
  monthStart : Int → Int
  monthEnd : Int → Int
  dayOfMonth : Int → Int

/-- The transactions of one user (`select(Tx).where(Tx.user_id == uid)`). -/
def userTxs (db : List Tx) (uid : Nat) : List Tx :=
  db.filter (fun t => t.user_id == uid)

/-- Total of the absolute amounts of a list of transactions
(`sum(abs(t.amount) for t in l)`). -/
def sumAbs (l : List Tx) : ℚ :=
  (l.map (fun t => |t.amount|)).sum

/-- Sum of the signed amounts of a list of transactions. -/
def sumAmt (l : List Tx) : ℚ :=
  (l.map (fun t => t.amount)).sum

/-! ## Time-series aggregation (`_forecast_cached`, lines 29–34)

`df.groupby("tx_date")["amount"].sum().sort_index()` followed by
`.cumsum()`: the distinct transaction dates in ascending order, with the
cumulative balance at each. -/

/-- The distinct transaction dates, ascending
(`groupby("tx_date") ... .sort_index()` index). -/
def sortedDates (txs : List Tx) : List Int :=
  ((txs.map Tx.tx_date).dedup).insertionSort (· ≤ ·)

/-- Cumulative balance up to and including date `d`: the value the
running series (`df.cumsum()`) takes at `d`. -/
def runningAt (txs : List Tx) (d : Int) : ℚ :=
  sumAmt (txs.filter (fun t => t.tx_date ≤ d))

/-- The aggregated series `running`: one `(date, cumulative balance)` pair
per distinct transaction date, chronological. -/
def runningSeries (txs : List Tx) : List (Int × ℚ) :=
  (sortedDates txs).map (fun d => (d, runningAt txs d))

/-- Embeds `running.index.max()`, i.e. `max(t.tx_date for t in txs)` (0 for an
empty list; the callers guard against that case). -/
def lastDate (txs : List Tx) : Int :=
  match txs with
  | [] => 0
  | t :: r => r.foldl (fun m u => max m u.tx_date) t.tx_date

/-- Embeds `running.index.min()` (`base` in the source). -/
def minDate (txs : List Tx) : Int :=
  match txs with
  | [] => 0
  | t :: r => r.foldl (fun m u => min m u.tx_date) t.tx_date

/-! ## Forecast models (`forecast.py`) -/

/-- Opaque external models: `rf`/`catboost` map (training day-indices,
training balances, future day-indices) to predictions, `neuralprophet`
maps (running series, future dates) to predictions, and `normal μ σsq p i`
is the `i`-th sample of the `p`-th batch drawn by
`np.random.normal(mu, sigma, days)` (σsq is the sampler's variance; the
source passes `sigma = sqrt σsq`, and `σ = 0 ↔ σsq = 0`). -/
structure Oracles where
  rf : List Int → List ℚ → List Int → List ℚ
  catboost : List Int → List ℚ → List Int → List ℚ
  neuralprophet : List (Int × ℚ) → List Int → List ℚ
  normal : ℚ → ℚ → Nat → Nat → ℚ

/-- The shape contract of the external regressors: one prediction per
queried future point (what `sklearn`'s / catboost's `predict` and
neuralprophet's `tail(len(future_dates))` guarantee). -/
def Oracles.LengthOk (o : Oracles) : Prop :=
  (∀ a b c, (o.rf a b c).length = c.length) ∧
  (∀ a b c, (o.catboost a b c).length = c.length) ∧
  (∀ a b, (o.neuralprophet a b).length = b.length)

/-- A trivial instantiation of the external models (all predictions 0),
used to evaluate the embedding on concrete inputs. -/
def oracleZero : Oracles where
  rf := fun _ _ c => c.map (fun _ => 0)
  catboost := fun _ _ c => c.map (fun _ => 0)
  neuralprophet := fun _ b => b.map (fun _ => 0)
  normal := fun _ _ _ _ => 0

/-- Errors surfaced by the forecast endpoint: HTTP 404 "No transactions"
and HTTP 503 "model not available - ML libraries not installed". -/
inductive FErr where
  | noTransactions
  | modelUnavailable
deriving DecidableEq, Repr

/-- Embeds `np.cumsum`: running partial sums of a list (accumulator-style). -/
def cumsum (acc : ℚ) : List ℚ → List ℚ
  | [] => []
  | x :: xs => (acc + x) :: cumsum (acc + x) xs

/-- Embeds `running.diff().fillna(running.iloc[0])`: consecutive differences of
the running balances, with the leading `NaN` replaced by the first
balance. -/
def dailyDeltas (rs : List ℚ) : List ℚ :=
  match rs with
  | [] => []
  | r0 :: _ => r0 :: (rs.zip rs.tail).map (fun p => p.2 - p.1)

/-- Mean of a list of rationals (`.mean()`; 0 on the empty list, which the
call sites exclude). -/
def listMean (l : List ℚ) : ℚ :=
  l.sum / l.length

/-- Sample variance with one delta degree of freedom, i.e. the square of
pandas' `std()` (`ddof = 1`); 0 when fewer than two points. -/
def sampleVar (l : List ℚ) : ℚ :=
  if l.length < 2 then 0
  else (l.map (fun x => (x - listMean l) ^ 2)).sum / (l.length - 1)

/-- Ordinary least squares of `ys` on `xs` evaluated at `x`
(`sklearn.linear_model.LinearRegression`): prediction
`ȳ + slope · (x − x̄)` with `slope = Σ(xᵢ−x̄)(yᵢ−ȳ) / Σ(xᵢ−x̄)²`. -/
def olsPredict (xs : List ℚ) (ys : List ℚ) (x : ℚ) : ℚ :=
  let xm := listMean xs
  let ym := listMean ys
  let sxx := ((xs.map (fun v => (v - xm) ^ 2))).sum
  let sxy := (((xs.zip ys).map (fun p => (p.1 - xm) * (p.2 - ym)))).sum
  ym + sxy / sxx * (x - xm)

/-- Embeds `_forecast_cached(user_id, days, model, last_ts)` (forecast.py lines
26–104), as a function of the ML-availability flag, today's date, and the
user's transactions.  Returns the list of
`(tx_date, predicted_balance)` pairs, or the raised `HTTPException`. -/
def forecastCached (o : Oracles) (ml : Bool) (today : Int) (txs : List Tx)
    (days : Nat) (model : String) : Except FErr (List (Int × ℚ)) :=
  let running := runningSeries txs
  let rs := running.map Prod.snd
  if ml = false ∨ running.length < 7 then
    -- simple linear projection (lines 36–59): dates from
    -- `pd.date_range(date.today(), periods=days)`, i.e. starting TODAY
    let currentBalance := if 0 < rs.length then rs.getLast?.getD 0 else 0
    let dailyChange : ℚ :=
      if rs.length < 2 then 0
      else
        let recentDays := min 7 (rs.length - 1)
        (rs.getLast?.getD 0 - rs.getD (rs.length - recentDays - 1) 0) / recentDays
    .ok ((List.range days).map
      (fun i : Nat => (today + (i : Int), currentBalance + dailyChange * ((i : ℚ) + 1))))
  else
    let base := minDate txs
    let idx := (sortedDates txs).map (fun d => d - base)
    let lastIdx := lastDate txs - base
    let futureDates := (List.range' 1 days).map (fun i : Nat => lastDate txs + (i : Int))
    let futureIdx := (List.range' 1 days).map (fun i : Nat => lastIdx + (i : Int))
    if model = "rf" then
      .ok (futureDates.zip (o.rf idx rs futureIdx))
    else if model = "catboost" then
      if ml = false then .error .modelUnavailable
      else .ok (futureDates.zip (o.catboost idx rs futureIdx))
    else if model = "neuralprophet" then
      if ml = false then .error .modelUnavailable
      else .ok (futureDates.zip (o.neuralprophet running futureDates))
    else if model = "mc" then
      let daily := dailyDeltas rs
      let mu := listMean daily
      -- `float(daily.std()) if daily.std() else 0.0`: the sampler's σ is
      -- the sample standard deviation, 0 when degenerate — i.e. σ² is
      -- exactly `sampleVar daily` in both cases.
      let sigmaSq := sampleVar daily
      let lastBalance := rs.getLast?.getD 0
      let sims := (List.range 100).map
        (fun p => (cumsum 0 ((List.range days).map (o.normal mu sigmaSq p))).map
          (fun v => v + lastBalance))
      let preds := (List.range days).map
        (fun i => (((List.range 100).map (fun p => (sims.getD p []).getD i 0)).sum) / 100)
      .ok (futureDates.zip preds)
    else
      .ok (futureDates.zip (futureIdx.map (fun x : Int =>
        olsPredict (idx.map (fun v : Int => (v : ℚ))) rs (x : ℚ))))

/-! ## Forecast cache (`cached_forecast` / `get_forecast`, lines 107–120) -/

/-- The `functools.lru_cache` key: `(user_id, days, model, last_ts)`. -/
abbrev CKey := Nat × Nat × String × Int

/-- The process-wide LRU memo of `cached_forecast`, most recent first. -/
structure Cache where
  entries : List (CKey × List (Int × ℚ))
deriving DecidableEq, Repr

/-- The empty cache. -/
def Cache.empty : Cache := ⟨[]⟩

/-- Cache lookup. -/
def Cache.lookup (c : Cache) (k : CKey) : Option (List (Int × ℚ)) :=
  (c.entries.find? (fun e => decide (e.1 = k))).map Prod.snd

/-- On a hit the LRU moves the entry to the most-recent position. -/
def Cache.promote (c : Cache) (k : CKey) (v : List (Int × ℚ)) : Cache :=
  ⟨(k, v) :: c.entries.filter (fun e => !decide (e.1 = k))⟩

/-- On a miss the result is stored as most recent and the cache is
trimmed to `maxsize = 32` entries (LRU eviction). -/
def Cache.store (c : Cache) (k : CKey) (v : List (Int × ℚ)) : Cache :=
  ⟨((k, v) :: c.entries.filter (fun e => !decide (e.1 = k))).take 32⟩

/-- Embeds `get_forecast(days, model, user)` (lines 112–120) composed with the
`lru_cache`-wrapped `cached_forecast`: raises 404 when the user has no
transactions, otherwise serves from the cache keyed on
`(user_id, days, model, max(t.tx_date).toordinal())`.  Returns the
result, the updated cache state and whether the call was a cache hit. -/
def getForecast (o : Oracles) (ml : Bool) (today : Int) (db : List Tx)
    (c : Cache) (uid : Nat) (days : Nat) (model : String) :
    Except FErr (List (Int × ℚ) × Cache × Bool) :=
  match userTxs db uid with
  | [] => .error .noTransactions
  | t :: r =>
    let ts := r.foldl (fun m u => max m u.tx_date) t.tx_date
    let k : CKey := (uid, days, model, ts)
    match c.lookup k with
    | some v => .ok (v, c.promote k v, true)
    | none =>
      match forecastCached o ml today (t :: r) days model with
      | .error e => .error e
      | .ok v => .ok (v, c.store k v, false)

/-! ## Anomaly detector (`insights_engine.AnomalyDetector`) -/

/-- One flagged anomaly, carrying the structured evidence stored in the
source's anomaly dict (the human-readable `title`/`description` strings
are rendered from exactly these fields and are not re-modelled). -/
inductive Anomaly where
  | unusualAmount (category : String) (txId : Nat) (amount mean deviation : ℚ)
      (tx_date : Int)
  | categorySpike (category : String) (recent typical incPct : ℚ)
  | duplicateCharge (ids : List Nat) (amount : ℚ) (category : String)
      (dates : List Int)
  | subscriptionCreep (category : String) (first last incPct : ℚ)
deriving DecidableEq, Repr

/-- The trailing-90-day transaction window of `detect_anomalies`
(lines 30–39). -/
def windowTxs (today : Int) (db : List Tx) (uid : Nat) : List Tx :=
  (userTxs db uid).filter (fun t => today - 90 ≤ t.tx_date ∧ t.tx_date ≤ today)

/-- Dedup of the labels of a transaction list, in first-occurrence order —
the iteration order of the source's `defaultdict` keys. -/
def labelsOf (l : List Tx) : List String :=
  (l.map Tx.label).dedup

/-- Embeds `_detect_unusual_amounts` (lines 52–86): per category with ≥5 expense
observations, flag expenses more than 3 sample standard deviations from
the category mean.  `stdev > 0 and |amount−mean| > 3·stdev` is encoded
squared (`var > 0 ∧ (amount−mean)² > 9·var`) to stay in ℚ; the two are
equivalent since both sides are nonnegative. -/
def unusualScan (transactions : List Tx) (category : String)
    (mean var : ℚ) : List Anomaly :=
  transactions.filterMap (fun t =>
    if t.label = category ∧ t.amount < 0 ∧ 0 < var ∧
        9 * var < (|t.amount| - mean) ^ 2 then
      some (.unusualAmount category t.id (|t.amount|) mean
        ((|(|t.amount| - mean)|) / mean * 100) t.tx_date)
    else none)

/-- Embeds `_detect_unusual_amounts`, assembled: per qualifying category run the
outlier scan with that category's sample statistics. -/
def detectUnusualAmounts (transactions : List Tx) : List Anomaly :=
  let expenses := transactions.filter (fun t => t.amount < 0)
  (labelsOf expenses).flatMap (fun category =>
    let amounts := (expenses.filter (fun t => t.label == category)).map
      (fun t => |t.amount|)
    if amounts.length < 5 then []
    else unusualScan transactions category (listMean amounts) (sampleVar amounts))

/-- Embeds `recent_spending[l]`: total expense on label `l` in the last 7 days
(lines 96–104). -/
def recentSpend (today : Int) (transactions : List Tx) (l : String) : ℚ :=
  sumAbs (transactions.filter (fun t =>
    t.amount < 0 ∧ today - 7 ≤ t.tx_date ∧ t.label == l))

/-- Embeds `previous_spending[l]`: total expense on label `l` in the preceding
window, days 8–37 back (the `elif` branch of lines 100–104). -/
def prevSpend (today : Int) (transactions : List Tx) (l : String) : ℚ :=
  sumAbs (transactions.filter (fun t =>
    t.amount < 0 ∧ t.tx_date < today - 7 ∧ today - 37 ≤ t.tx_date ∧ t.label == l))

/-- The keys of `recent_spending`: labels with at least one expense in the
last 7 days. -/
def recentCats (today : Int) (transactions : List Tx) : List String :=
  labelsOf (transactions.filter (fun t => t.amount < 0 ∧ today - 7 ≤ t.tx_date))

/-- Embeds `category in previous_spending`: label has an expense in the
comparison window. -/
def inPrevWindow (today : Int) (transactions : List Tx) (l : String) : Bool :=
  transactions.any (fun t =>
    t.amount < 0 ∧ t.tx_date < today - 7 ∧ today - 37 ≤ t.tx_date ∧ t.label == l)

/-- Embeds `previous_weekly_avg = previous_spending[category] / 4.3`. -/
def weeklyAvg (today : Int) (transactions : List Tx) (l : String) : ℚ :=
  prevSpend today transactions l / (43 / 10)

/-- Embeds `_detect_category_spikes` (lines 88–125): per category present in
both windows, flag when the percentage increase of the recent 7-day total
over the prior weekly average strictly exceeds 200. -/
def detectCategorySpikes (today : Int) (transactions : List Tx) : List Anomaly :=
  (recentCats today transactions).filterMap (fun category =>
    if inPrevWindow today transactions category then
      let recentWeekly := recentSpend today transactions category
      let previousWeeklyAvg := weeklyAvg today transactions category
      if 0 < previousWeeklyAvg then
        let incPct := (recentWeekly - previousWeeklyAvg) / previousWeeklyAvg * 100
        if 200 < incPct then
          some (.categorySpike category recentWeekly previousWeeklyAvg incPct)
        else none
      else none
    else none)

/-- The inner loop of `_detect_duplicate_charges`: pair `t1` with every
later expense of identical amount and label dated within 3 days but not
the same day. -/
def dupPairs (t1 : Tx) (rest : List Tx) : List Anomaly :=
  if 0 ≤ t1.amount then []
  else rest.filterMap (fun t2 =>
    if t2.amount < 0 ∧ t1.amount = t2.amount ∧ t1.label = t2.label ∧
        (t1.tx_date - t2.tx_date).natAbs ≤ 3 ∧ 0 < (t1.tx_date - t2.tx_date).natAbs then
      some (.duplicateCharge [t1.id, t2.id] (|t1.amount|) t1.label
        [t1.tx_date, t2.tx_date])
    else none)

/-- Embeds `_detect_duplicate_charges` (lines 127–157): every unordered pair of
expense transactions with identical amount and category, 1–3 days apart. -/
def detectDuplicateCharges : List Tx → List Anomaly
  | [] => []
  | t1 :: rest => dupPairs t1 rest ++ detectDuplicateCharges rest

/-- The entries appended to `subscription_amounts[label]` (lines 172–185):
expenses with at least two other near-identical-amount transactions of
the same label. -/
def subscriptionEntries (transactions : List Tx) (l : String) : List (ℚ × Int) :=
  (transactions.filter (fun tx =>
    tx.amount < 0 ∧ tx.label == l ∧
      2 ≤ (transactions.filter (fun t =>
        t.label == tx.label ∧ |(|t.amount| - |tx.amount|)| < 5 ∧ t.id ≠ tx.id)).length)).map
    (fun tx => (|tx.amount|, tx.tx_date))

/-- Embeds `_detect_subscription_creep` (lines 159–208): per category with ≥3
near-recurring expense amounts, sort by date and flag a >10% rise from
first to last.  (The source also builds a `recurring_patterns` dict that
it never reads; that dead store is not modelled.) -/
def detectSubscriptionCreep (transactions : List Tx) : List Anomaly :=
  (labelsOf (transactions.filter (fun t => t.amount < 0))).filterMap (fun category =>
    let amounts := subscriptionEntries transactions category
    if 3 ≤ amounts.length then
      let sorted := amounts.insertionSort (fun a b => a.2 ≤ b.2)
      let firstAmount := (sorted.head?.getD (0, 0)).1
      let lastAmount := (sorted.getLast?.getD (0, 0)).1
      if firstAmount * (11 / 10) < lastAmount then
        some (.subscriptionCreep category firstAmount lastAmount
          ((lastAmount - firstAmount) / firstAmount * 100))
      else none
    else none)

/-- Embeds `AnomalyDetector.detect_anomalies` (lines 25–50): empty when the
90-day window holds fewer than 10 transactions, otherwise the
concatenation of the four sub-scans. -/
def detectAnomalies (today : Int) (db : List Tx) (uid : Nat) : List Anomaly :=
  let transactions := windowTxs today db uid
  if transactions.length < 10 then []
  else
    detectUnusualAmounts transactions ++ detectCategorySpikes today transactions ++
      detectDuplicateCharges transactions ++ detectSubscriptionCreep transactions

/-! ## Insights generator (`insights_engine.InsightsGenerator`) -/

/-- Insight priorities (`dbmodels.InsightPriority`). -/
inductive InsightPriority where
  | low
  | medium
  | high
  | urgent
deriving DecidableEq, Repr

/-- One generated insight, carrying the structured payload the source
stores in `Insight.data` (titles/descriptions are rendered from these
fields and are not re-modelled). -/
inductive Insight where
  | anomalyInsight (priority : InsightPriority) (a : Anomaly)
  | savingsOpportunity (category : String) (totalSpent : ℚ) (count : Nat)
  | achievement (category : String) (reduction reductionPct : ℚ)
  | prediction (priority : InsightPriority) (projected overage : ℚ)
      (daysUntilExceed : Int)
  | recommendation (recommendedBudget currentSpending : ℚ)
deriving DecidableEq, Repr

/-- Holds for the anomaly type that is wrapped with `HIGH` priority. -/
def Anomaly.isDuplicateCharge : Anomaly → Bool
  | .duplicateCharge _ _ _ _ => true
  | _ => false

/-- The budget goals of one user. -/
def userGoals (goals : List BudgetGoal) (uid : Nat) : List BudgetGoal :=
  goals.filter (fun g => g.user_id == uid)

/-- The current month's budget goal, if any
(`select(BudgetGoal).where(... month == current_month)`). -/
def currentGoal (cal : Calendar) (today : Int) (goals : List BudgetGoal)
    (uid : Nat) : Option BudgetGoal :=
  (userGoals goals uid).find? (fun g => decide (g.month = cal.monthStart today))

/-- Python's `int()` on a rational: truncation toward zero. -/
def pyInt (q : ℚ) : Int :=
  if 0 ≤ q then ⌊q⌋ else ⌈q⌉

/-- Embeds `_generate_savings_opportunities` (lines 248–299): trailing-30-day
expense categories with more than 10 transactions. -/
def generateSavingsOpportunities (today : Int) (db : List Tx) (uid : Nat) :
    List Insight :=
  let transactions := (userTxs db uid).filter (fun t =>
    today - 30 ≤ t.tx_date ∧ t.tx_date ≤ today ∧ t.amount < 0)
  (labelsOf transactions).filterMap (fun category =>
    let catTxs := transactions.filter (fun t => t.label == category)
    if 10 < catTxs.length then
      some (.savingsOpportunity category (sumAbs catTxs) catTxs.length)
    else none)

/-- Embeds `_generate_achievements` (lines 301–362): categories whose
current-calendar-month spending fell by more than $50 and more than 20%
versus the previous calendar month. -/
def generateAchievements (cal : Calendar) (today : Int) (db : List Tx)
    (uid : Nat) : List Insight :=
  let currentMonthStart := cal.monthStart today
  let lastMonthEnd := currentMonthStart - 1
  let lastMonthStart := cal.monthStart lastMonthEnd
  let currentTxs := (userTxs db uid).filter (fun t =>
    currentMonthStart ≤ t.tx_date ∧ t.amount < 0)
  let lastTxs := (userTxs db uid).filter (fun t =>
    lastMonthStart ≤ t.tx_date ∧ t.tx_date ≤ lastMonthEnd ∧ t.amount < 0)
  (labelsOf lastTxs).filterMap (fun category =>
    if category ∈ labelsOf currentTxs then
      let lastAmt := sumAbs (lastTxs.filter (fun t => t.label == category))
      let curAmt := sumAbs (currentTxs.filter (fun t => t.label == category))
      let reduction := lastAmt - curAmt
      let reductionPct := reduction / lastAmt * 100
      if 50 < reduction ∧ 20 < reductionPct then
        some (.achievement category reduction reductionPct)
      else none
    else none)

/-- Embeds `_generate_predictions` (lines 364–419): with a current-month budget
goal, project month-end spend from the daily rate so far (a 30-day month
is assumed) and flag a projected overage.  Where the source would divide
by a zero `daily_rate` (raising `ZeroDivisionError`), the embedding's ℚ
division yields 0; no theorem relies on that branch. -/
def generatePredictions (cal : Calendar) (today : Int)
    (goals : List BudgetGoal) (db : List Tx) (uid : Nat) : List Insight :=
  match currentGoal cal today goals uid with
  | none => []
  | some goal =>
    let currentMonth := cal.monthStart today
    let daysPassed : Int := cal.dayOfMonth today
    let currentSpending := sumAbs ((userTxs db uid).filter (fun t =>
      currentMonth ≤ t.tx_date ∧ t.amount < 0))
    if 0 < daysPassed then
      let dailyRate := currentSpending / (daysPassed : ℚ)
      let projectedTotal := dailyRate * 30
      if goal.amount < projectedTotal then
        let daysUntilExceed := pyInt ((goal.amount - currentSpending) / dailyRate)
        let priority : InsightPriority :=
          if daysUntilExceed < 7 then .high else .medium
        [.prediction priority projectedTotal (projectedTotal - goal.amount)
          daysUntilExceed]
      else []
    else []

/-- Embeds `_generate_recommendations` (lines 421–461): if the current month has
no goal and the trailing 30 days hold more than 10 transactions,
recommend 110% of that spend. -/
def generateRecommendations (cal : Calendar) (today : Int)
    (goals : List BudgetGoal) (db : List Tx) (uid : Nat) : List Insight :=
  let transactions := (userTxs db uid).filter (fun t => today - 30 ≤ t.tx_date)
  match currentGoal cal today goals uid with
  | some _ => []
  | none =>
    if 10 < transactions.length then
      let totalSpending := sumAbs (transactions.filter (fun t => t.amount < 0))
      [.recommendation (totalSpending * (11 / 10)) totalSpending]
    else []

/-- Embeds `InsightsGenerator.generate_all_insights` (lines 222–246): anomalies
wrapped as insights (duplicate-charge at `HIGH` priority, others
`MEDIUM`), then the four rule-based generators. -/
def generateAllInsights (cal : Calendar) (today : Int) (db : List Tx)
    (goals : List BudgetGoal) (uid : Nat) : List Insight :=
  ((detectAnomalies today db uid).map (fun a =>
    .anomalyInsight (if a.isDuplicateCharge then .high else .medium) a))
  ++ generateSavingsOpportunities today db uid
  ++ generateAchievements cal today db uid
  ++ generatePredictions cal today goals db uid
  ++ generateRecommendations cal today goals db uid

/-! ## Financial health score (`calculate_financial_health_score`,
lines 463–651) -/

/-- Embeds `_calculate_budget_adherence` (lines 512–545): mean over the last ~3
months' positive goals of `min(100, goal/spend × 100)` (100 when nothing
was spent that month); 50 when no goals, or none with positive amount. -/
def budgetAdherence (cal : Calendar) (today : Int) (goals : List BudgetGoal)
    (db : List Tx) (uid : Nat) : ℚ :=
  let budgetGoals := (userGoals goals uid).filter (fun g =>
    cal.monthStart today - 90 ≤ g.month)
  if budgetGoals.isEmpty then 50
  else
    let adherenceScores := budgetGoals.filterMap (fun goal =>
      let spending := sumAbs ((userTxs db uid).filter (fun t =>
        goal.month ≤ t.tx_date ∧ t.tx_date ≤ cal.monthEnd goal.month ∧
          t.amount < 0))
      if 0 < goal.amount then
        some (min 100 (if 0 < spending then goal.amount / spending * 100 else 100))
      else none)
    if adherenceScores.isEmpty then 50
    else adherenceScores.sum / adherenceScores.length

/-- The weekly expense totals of the last 8 weeks (lines 549–565). -/
def weeklySpending (today : Int) (db : List Tx) (uid : Nat) : List ℚ :=
  (List.range 8).map (fun week : Nat =>
    let weekStart := today - 7 * ((week : Int) + 1)
    sumAbs ((userTxs db uid).filter (fun t =>
      weekStart ≤ t.tx_date ∧ t.tx_date < weekStart + 7 ∧ t.amount < 0)))

/-- Embeds `_calculate_spending_consistency` (lines 547–580): clamped
`100 × (1 − CV)` of the 8 weekly totals, 50 when the mean is not
positive.  The coefficient of variation uses `statistics.stdev`
(sample standard deviation), hence `Real.sqrt`. -/
noncomputable def spendingConsistency (today : Int) (db : List Tx)
    (uid : Nat) : ℝ :=
  let weekly := weeklySpending today db uid
  if weekly.length < 2 then 50
  else
    let mean := listMean weekly
    let stdev : ℝ := Real.sqrt ((sampleVar weekly : ℚ) : ℝ)
    if 0 < mean then max 0 (min 100 (100 * (1 - stdev / ((mean : ℚ) : ℝ))))
    else 50

/-- Embeds `_calculate_savings_rate` (lines 582–609): trailing-30-day
`(income − expenses)/income × 500`, clamped to [0,100]; 0 with expenses
but no income, 50 with neither. -/
def savingsRate (today : Int) (db : List Tx) (uid : Nat) : ℚ :=
  let txs := (userTxs db uid).filter (fun t => today - 30 ≤ t.tx_date)
  let income := sumAmt (txs.filter (fun t => 0 < t.amount))
  let expenses := |sumAmt (txs.filter (fun t => t.amount < 0))|
  if 0 < income then
    max 0 (min 100 ((income - expenses) / income * 500))
  else if 0 < expenses then 0
  else 50

/-- The trailing-30-day expense transactions used by the category-balance
score (lines 614–622). -/
def balanceTxs (today : Int) (db : List Tx) (uid : Nat) : List Tx :=
  (userTxs db uid).filter (fun t => today - 30 ≤ t.tx_date ∧ t.amount < 0)

/-- Embeds `_calculate_category_balance` (lines 611–651): Shannon entropy of the
expense share per category, normalized by `log(category_count)` and
scaled to 0–100; 50 with fewer than 10 transactions, no spend, fewer
than 2 categories, or `log(category_count) ≤ 0`. -/
noncomputable def categoryBalance (today : Int) (db : List Tx) (uid : Nat) : ℝ :=
  let transactions := balanceTxs today db uid
  if transactions.length < 10 then 50
  else
    let cats := labelsOf transactions
    let totalSpending := sumAbs transactions
    if totalSpending = 0 ∨ cats.length < 2 then 50
    else
      let entropy : ℝ := (cats.map (fun l =>
        let proportion : ℝ :=
          ((sumAbs (transactions.filter (fun t => t.label == l)) / totalSpending : ℚ) : ℝ)
        if 0 < proportion then -(proportion * Real.log proportion) else 0)).sum
      let maxEntropy : ℝ := Real.log (cats.length : ℝ)
      if 0 < maxEntropy then min 100 (entropy / maxEntropy * 100)
      else 50

/-- The stored health-score row (`dbmodels.FinancialHealthScore`):
composite score, the four component sub-scores, and the trend label. -/
structure FinancialHealthScore where
  score : ℝ
  budget_adherence : ℚ
  spending_consistency : ℝ
  savings_rate : ℚ
  category_balance : ℝ
  trend : String

/-- Embeds `calculate_financial_health_score` (lines 463–510): the weighted
component sum (30/20/30/20) plus the ±2-point trend comparison with the
previous stored score. -/
noncomputable def calculateFinancialHealthScore (cal : Calendar) (today : Int)
    (db : List Tx) (goals : List BudgetGoal) (uid : Nat)
    (previousScore : Option ℝ) : FinancialHealthScore :=
  let ba := budgetAdherence cal today goals db uid
  let sc := spendingConsistency today db uid
  let sr := savingsRate today db uid
  let cb := categoryBalance today db uid
  let totalScore : ℝ := ((ba : ℚ) : ℝ) * (3 / 10) + sc * (2 / 10) +
    ((sr : ℚ) : ℝ) * (3 / 10) + cb * (2 / 10)
  let trend :=
    match previousScore with
    | some prev =>
      if prev + 2 < totalScore then "improving"
      else if totalScore < prev - 2 then "declining"
      else "stable"
    | none => "stable"
  ⟨totalScore, ba, sc, sr, cb, trend⟩

/-! ## Concrete inputs used by witnesses and counterexamples -/

/-- Two expense transactions of amount −45.99, category "Food", 2 days
apart — the scenario of the duplicate-charge claim. -/
def txC6a : Tx := ⟨1, 1, 739395, -4599/100, "Food", false, none⟩

/-- Second transaction of the duplicate-charge scenario. -/
def txC6b : Tx := ⟨2, 1, 739397, -4599/100, "Food", false, none⟩

/-- A recent-window expense of 30 on "Food" (spike scenario). -/
def txC5a : Tx := ⟨1, 1, 739300, -30, "Food", false, none⟩

/-- A prior-window expense of 43 on "Food", making the prior weekly
average 43 / 4.3 = 10 (spike scenario). -/
def txC5b : Tx := ⟨2, 1, 739290, -43, "Food", false, none⟩

/-! ## C7 -/

/-- C7: for every user whose trailing-90-day window holds fewer than 10
transactions, `detect_anomalies` returns the empty list (and, being a
total function of its inputs, raises no error). -/
theorem C7_min_data_empty (today : Int) (db : List Tx) (uid : Nat)
    (h : (windowTxs today db uid).length < 10) :
    detectAnomalies today db uid = [] := by
  unfold detectAnomalies
  simp [h]

/-- Witness for C7 at a concrete input: an empty database. -/
theorem C7_witness :
    (windowTxs 739400 [] 1).length < 10 ∧ detectAnomalies 739400 [] 1 = [] :=
  ⟨by decide, C7_min_data_empty 739400 [] 1 (by decide)⟩

/-! ## C6 -/

/-- C6 counterexample: the 90-day window holding exactly the two
−45.99 "Food" expenses 2 days apart produces NO anomaly at all from
`detect_anomalies` — the 10-transaction minimum suppresses every
sub-scan, contradicting the claimed `duplicate_charge` result. -/
theorem C6_counterexample :
    detectAnomalies 739400 [txC6a, txC6b] 1 = [] := by
  norm_num [detectAnomalies, windowTxs, userTxs, txC6a, txC6b]

/-- C6 amended: the duplicate-charge sub-scan itself does flag the pair,
referencing both transaction identifiers; `detect_anomalies` only
surfaces it when the window holds at least 10 transactions, and on just
these two transactions returns the empty list. -/
theorem C6_amended :
    Anomaly.duplicateCharge [1, 2] (4599/100) "Food" [739395, 739397] ∈
      detectDuplicateCharges [txC6a, txC6b] ∧
    detectAnomalies 739400 [txC6a, txC6b] 1 = [] := by
  constructor
  · norm_num [detectDuplicateCharges, dupPairs, txC6a, txC6b]
  · norm_num [detectAnomalies, windowTxs, userTxs, txC6a, txC6b]

/-! ## C5 -/

/-- C5 counterexample: a category whose last-7-day total (30) is exactly
3× its prior weekly average (43 / 4.3 = 10) — hence strictly above 200%
of that average — is NOT flagged by the category-spike sub-scan: the
source requires the percentage *increase* to strictly exceed 200, i.e.
the recent total to exceed 3× the average. -/
theorem C5_counterexample :
    detectCategorySpikes 739300 [txC5a, txC5b] = [] ∧
    recentSpend 739300 [txC5a, txC5b] "Food" =
      3 * weeklyAvg 739300 [txC5a, txC5b] "Food" ∧
    2 * weeklyAvg 739300 [txC5a, txC5b] "Food" <
      recentSpend 739300 [txC5a, txC5b] "Food" := by
  refine ⟨?_, ?_, ?_⟩ <;>
    norm_num [detectCategorySpikes, recentCats, labelsOf, inPrevWindow,
      recentSpend, prevSpend, weeklyAvg, sumAbs, txC5a, txC5b]

/-- A label with an expense in the comparison window has a positive
prior-window total. -/
theorem prevSpend_pos (today : Int) (transactions : List Tx) (l : String)
    (h : inPrevWindow today transactions l = true) :
    0 < prevSpend today transactions l := by
  unfold inPrevWindow at h
  rw [List.any_eq_true] at h
  obtain ⟨t, ht, hp⟩ := h
  simp only [decide_eq_true_eq] at hp
  have hmem : t ∈ transactions.filter (fun t =>
      t.amount < 0 ∧ t.tx_date < today - 7 ∧ today - 37 ≤ t.tx_date ∧
        t.label == l) := by
    rw [List.mem_filter]
    exact ⟨ht, by simpa using hp⟩
  have habs : |t.amount| ∈ (transactions.filter (fun t =>
      t.amount < 0 ∧ t.tx_date < today - 7 ∧ today - 37 ≤ t.tx_date ∧
        t.label == l)).map (fun t => |t.amount|) :=
    List.mem_map_of_mem _ hmem
  have hpos : 0 < |t.amount| := abs_pos.mpr (ne_of_lt hp.1)
  calc (0 : ℚ) < |t.amount| := hpos
    _ ≤ _ := List.single_le_sum (fun x hx => by
        obtain ⟨u, _, hu⟩ := List.mem_map.mp hx
        exact hu ▸ abs_nonneg u.amount) _ habs

/-- The source's spike test `200 < (r − a)/a · 100` is, for positive `a`,
exactly `3a < r`. -/
theorem spikePct_iff (r a : ℚ) (ha : 0 < a) :
    200 < (r - a) / a * 100 ↔ 3 * a < r := by
  rw [div_mul_eq_mul_div, lt_div_iff₀ ha]
  constructor <;> intro h <;> nlinarith

/-- C5 amended: the category-spike sub-scan flags a category exactly when
it has expenses in both windows and its last-7-day total strictly
exceeds 3× (not 2×) the prior weekly average — equivalently, when the
percentage increase over that average strictly exceeds 200. -/
theorem C5_amended (today : Int) (transactions : List Tx) (l : String) :
    (∃ recent typical inc, Anomaly.categorySpike l recent typical inc ∈
        detectCategorySpikes today transactions) ↔
      l ∈ recentCats today transactions ∧
        inPrevWindow today transactions l = true ∧
        3 * weeklyAvg today transactions l < recentSpend today transactions l := by
  unfold detectCategorySpikes
  constructor
  · rintro ⟨recent, typical, inc, hmem⟩
    rw [List.mem_filterMap] at hmem
    obtain ⟨c, hc, hsome⟩ := hmem
    dsimp only at hsome
    split_ifs at hsome with h1 h2 h3
    obtain ⟨hcat, -, -, -⟩ := Anomaly.categorySpike.inj (Option.some.inj hsome)
    subst hcat
    exact ⟨hc, h1, (spikePct_iff _ _ h2).mp h3⟩
  · rintro ⟨hl, hprev, hlt⟩
    have ha : 0 < weeklyAvg today transactions l := by
      unfold weeklyAvg
      exact div_pos (prevSpend_pos today transactions l hprev) (by norm_num)
    refine ⟨recentSpend today transactions l, weeklyAvg today transactions l,
      (recentSpend today transactions l - weeklyAvg today transactions l) /
        weeklyAvg today transactions l * 100, ?_⟩
    rw [List.mem_filterMap]
    refine ⟨l, hl, ?_⟩
    rw [if_pos hprev]
    rw [if_pos ha, if_pos ((spikePct_iff _ _ ha).mpr hlt)]

/-! ## C2 -/

/-- Seven transactions on seven distinct dates (so that with ML libraries
available a catboost/neuralprophet request would reach the advanced-model
dispatch). -/
def txsC2 : List Tx :=
  [⟨1, 1, 739251, 10, "Food", false, none⟩, ⟨2, 1, 739252, 10, "Food", false, none⟩,
   ⟨3, 1, 739253, 10, "Food", false, none⟩, ⟨4, 1, 739254, 10, "Food", false, none⟩,
   ⟨5, 1, 739255, 10, "Food", false, none⟩, ⟨6, 1, 739256, 10, "Food", false, none⟩,
   ⟨7, 1, 739257, 10, "Food", false, none⟩]

/-- C2: the 503 `ModelUnavailableError` branches of `_forecast_cached`
are unreachable — they sit inside the region requiring
`ML_AVAILABLE ∧ len ≥ 7` yet fire only when `¬ML_AVAILABLE` — so no
input whatsoever produces `modelUnavailable`; in particular, with ML
libraries missing, requesting "catboost" for a 7-date history silently
returns the simple-projection output, identical to requesting
"linear". -/
theorem C2_modelUnavailable_unreachable :
    (∀ (o : Oracles) (ml : Bool) (today : Int) (txs : List Tx) (days : Nat)
        (model : String),
      forecastCached o ml today txs days model ≠ .error .modelUnavailable) ∧
    forecastCached oracleZero false 739300 txsC2 3 "catboost" =
      forecastCached oracleZero false 739300 txsC2 3 "linear" ∧
    (forecastCached oracleZero false 739300 txsC2 3 "catboost").isOk = true := by
  refine ⟨?_, rfl, rfl⟩
  intro o ml today txs days model
  unfold forecastCached
  dsimp only
  by_cases hs : ml = false ∨ (runningSeries txs).length < 7
  · rw [if_pos hs]
    simp
  · rw [if_neg hs]
    have hml : ¬ ml = false := fun h => hs (Or.inl h)
    by_cases h1 : model = "rf"
    · rw [if_pos h1]
      simp
    rw [if_neg h1]
    by_cases h2 : model = "catboost"
    · rw [if_pos h2, if_neg hml]
      simp
    rw [if_neg h2]
    by_cases h3 : model = "neuralprophet"
    · rw [if_pos h3, if_neg hml]
      simp
    rw [if_neg h3]
    by_cases h4 : model = "mc"
    · rw [if_pos h4]
      simp
    · rw [if_neg h4]
      simp

/-! ## Forecast output shape (C1, C10) -/

/-- The date of the first forecast point actually produced by
`_forecast_cached`: today on the simple-projection path, the day after
the last transaction date on the ML path. -/
def startDate (ml : Bool) (today : Int) (txs : List Tx) : Int :=
  if ml = false ∨ (runningSeries txs).length < 7 then today else lastDate txs + 1

/-- Shape of a zip of consecutive future dates against a same-length
prediction list. -/
theorem zip_dates_spec (last : Int) (days : Nat) (preds : List ℚ)
    (hp : preds.length = days) :
    (((List.range' 1 days).map (fun i : Nat => last + (i : Int))).zip preds).map Prod.fst =
      (List.range days).map (fun i : Nat => last + 1 + (i : Int)) ∧
    (((List.range' 1 days).map (fun i : Nat => last + (i : Int))).zip preds).length = days := by
  have hlen : ((List.range' 1 days).map (fun i : Nat => last + (i : Int))).length = days := by
    simp
  constructor
  · rw [List.map_fst_zip _ _ (by rw [hlen, hp])]
    rw [List.range'_eq_map_range, List.map_map]
    apply List.map_congr_left
    intro a _
    simp only [Function.comp_apply]
    push_cast
    ring
  · rw [List.length_zip, hlen, hp, Nat.min_self]

/-- Every call of `_forecast_cached` whose external regressors satisfy
their shape contract succeeds with exactly `days` points on consecutive
dates starting at `startDate`. -/
theorem forecastCached_ok (o : Oracles) (ml : Bool) (today : Int)
    (txs : List Tx) (days : Nat) (model : String) (ho : o.LengthOk) :
    ∃ pts, forecastCached o ml today txs days model = .ok pts ∧
      pts.length = days ∧
      pts.map Prod.fst =
        (List.range days).map (fun i : Nat => startDate ml today txs + (i : Int)) := by
  obtain ⟨hrf, hcb, hnp⟩ := ho
  unfold forecastCached startDate
  dsimp only
  by_cases hs : ml = false ∨ (runningSeries txs).length < 7
  · rw [if_pos hs, if_pos hs]
    refine ⟨_, rfl, by simp, ?_⟩
    rw [List.map_map]
    rfl
  · rw [if_neg hs, if_neg hs]
    have hml : ¬ ml = false := fun h => hs (Or.inl h)
    have hfi : ((List.range' 1 days).map
        (fun i : Nat => lastDate txs - minDate txs + (i : Int))).length = days := by simp
    by_cases h1 : model = "rf"
    · rw [if_pos h1]
      exact ⟨_, rfl, (zip_dates_spec _ days _ ((hrf _ _ _).trans hfi)).2,
        (zip_dates_spec _ days _ ((hrf _ _ _).trans hfi)).1⟩
    rw [if_neg h1]
    by_cases h2 : model = "catboost"
    · rw [if_pos h2, if_neg hml]
      exact ⟨_, rfl, (zip_dates_spec _ days _ ((hcb _ _ _).trans hfi)).2,
        (zip_dates_spec _ days _ ((hcb _ _ _).trans hfi)).1⟩
    rw [if_neg h2]
    by_cases h3 : model = "neuralprophet"
    · rw [if_pos h3, if_neg hml]
      exact ⟨_, rfl, (zip_dates_spec _ days _ ((hnp _ _).trans (by simp))).2,
        (zip_dates_spec _ days _ ((hnp _ _).trans (by simp))).1⟩
    rw [if_neg h3]
    by_cases h4 : model = "mc"
    · rw [if_pos h4]
      exact ⟨_, rfl, (zip_dates_spec _ days _ (by simp)).2,
        (zip_dates_spec _ days _ (by simp)).1⟩
    · rw [if_neg h4]
      exact ⟨_, rfl, (zip_dates_spec _ days _ (by simp)).2,
        (zip_dates_spec _ days _ (by simp)).1⟩

/-- The trivial oracle satisfies the regressors' shape contract. -/
theorem lengthOk_oracleZero : Oracles.LengthOk oracleZero := by
  refine ⟨?_, ?_, ?_⟩ <;> intros <;> simp [oracleZero]

/-! ## C1 -/

/-- A single transaction dated 739174, the scenario of the C1
counterexample (last known transaction date = 739174 = today). -/
def txC1 : Tx := ⟨1, 1, 739174, 100, "Food", false, none⟩

/-- C1 counterexample: a user with one transaction dated today
(ordinal 739174), horizon 5, model "linear", ML libraries available —
the claim's scope (≥1 transaction, N ∈ [1,30]).  The forecast's first
point is dated 739174, today, NOT the day after the last known
transaction date (739175): the fallback path anchors its dates at
`date.today()` instead of `last date + 1`. -/
theorem C1_counterexample :
    ∃ pts, forecastCached oracleZero true 739174 [txC1] 5 "linear" = .ok pts ∧
      pts.length = 5 ∧
      pts.head?.map Prod.fst = some 739174 ∧
      lastDate [txC1] + 1 = 739175 ∧
      pts.head?.map Prod.fst ≠ some (lastDate [txC1] + 1) := by
  refine ⟨_, rfl, ?_, ?_, ?_, ?_⟩
  · simp [forecastCached, runningSeries, sortedDates, txC1]
  · norm_num [forecastCached, runningSeries, sortedDates, runningAt, sumAmt,
      txC1, List.range_succ]
  · decide
  · norm_num [forecastCached, runningSeries, sortedDates, runningAt, sumAmt,
      txC1, List.range_succ, lastDate]

/-- C1 amended: for every model and horizon, given the regressors' shape
contract, the forecast succeeds with exactly `days` points on strictly
increasing consecutive calendar dates `startDate, startDate+1, …`; the
first date is the day after the last known transaction date exactly on
the ML path (libraries available and ≥7 distinct dates), and is today's
date on the simple-projection fallback. -/
theorem C1_amended (o : Oracles) (ml : Bool) (today : Int) (txs : List Tx)
    (days : Nat) (model : String) (ho : o.LengthOk) (_htx : txs ≠ [])
    (_hdays : 1 ≤ days ∧ days ≤ 30) :
    ∃ pts, forecastCached o ml today txs days model = .ok pts ∧
      pts.length = days ∧
      pts.map Prod.fst =
        (List.range days).map (fun i : Nat => startDate ml today txs + (i : Int)) ∧
      (ml = true → 7 ≤ (runningSeries txs).length →
        startDate ml today txs = lastDate txs + 1) ∧
      ((ml = false ∨ (runningSeries txs).length < 7) →
        startDate ml today txs = today) := by
  obtain ⟨pts, h1, h2, h3⟩ := forecastCached_ok o ml today txs days model ho
  refine ⟨pts, h1, h2, h3, ?_, ?_⟩
  · intro hml h7
    unfold startDate
    rw [if_neg]
    rintro (hc | hc)
    · rw [hml] at hc
      exact Bool.noConfusion hc
    · omega
  · intro hsimple
    unfold startDate
    rw [if_pos hsimple]

/-- Witness for C1 amended at a concrete input: the single-transaction
user of the counterexample (simple path, start date = today). -/
theorem C1_witness :
    Oracles.LengthOk oracleZero ∧ ([txC1] ≠ ([] : List Tx)) ∧
      (1 ≤ 5 ∧ 5 ≤ 30) ∧
      (∃ pts, forecastCached oracleZero true 739174 [txC1] 5 "linear" = .ok pts ∧
        pts.length = 5 ∧
        pts.map Prod.fst =
          (List.range 5).map (fun i : Nat => startDate true 739174 [txC1] + (i : Int)) ∧
        (true = true → 7 ≤ (runningSeries [txC1]).length →
          startDate true 739174 [txC1] = lastDate [txC1] + 1) ∧
        ((true = false ∨ (runningSeries [txC1]).length < 7) →
          startDate true 739174 [txC1] = 739174)) :=
  ⟨lengthOk_oracleZero, by decide, by decide,
    C1_amended oracleZero true 739174 [txC1] 5 "linear" lengthOk_oracleZero
      (by decide) (by decide)⟩

/-! ## C10 -/

/-- A user with one transaction, for the horizon-bounds counterexample. -/
def txC10 : Tx := ⟨1, 1, 739000, 10, "Food", false, none⟩

/-- On an empty cache, a user with transactions gets a freshly computed
forecast of exactly `days` points, whatever the horizon. -/
theorem getForecast_fresh (o : Oracles) (ml : Bool) (today : Int)
    (db : List Tx) (uid : Nat) (days : Nat) (model : String)
    (ho : o.LengthOk) (htx : userTxs db uid ≠ []) :
    ∃ pts c, getForecast o ml today db Cache.empty uid days model =
      .ok (pts, c, false) ∧ pts.length = days := by
  rcases hu : userTxs db uid with _ | ⟨t, r⟩
  · exact absurd hu htx
  obtain ⟨pts, h1, h2, _⟩ := forecastCached_ok o ml today (t :: r) days model ho
  refine ⟨pts, Cache.store Cache.empty (uid, days, model,
      r.foldl (fun m u => max m u.tx_date) t.tx_date) pts, ?_, h2⟩
  unfold getForecast
  rw [hu]
  dsimp only
  rw [show (Cache.empty).lookup (uid, days, model,
      r.foldl (fun m u => max m u.tx_date) t.tx_date) = none from rfl]
  rw [h1]

/-- C10 counterexample: `get_forecast` applies no bounds check to
`days` — a request with horizon 31 (outside [1,30]) is not rejected: it
is forwarded and a 31-point forecast is computed and returned. -/
theorem C10_counterexample :
    ∃ pts c, getForecast oracleZero false 739100 [txC10] Cache.empty 1 31
        "linear" = .ok (pts, c, false) ∧ pts.length = 31 :=
  getForecast_fresh oracleZero false 739100 [txC10] 1 31 "linear"
    lengthOk_oracleZero (by decide)

/-- C10 amended: the caller-facing forecast API does not validate the
horizon: for every horizon (including 0 and values above 30) a request
by a user with at least one transaction is forwarded to the model and
answered with a forecast of exactly that many points, never rejected. -/
theorem C10_amended (o : Oracles) (ml : Bool) (today : Int) (db : List Tx)
    (uid : Nat) (days : Nat) (model : String) (ho : o.LengthOk)
    (htx : userTxs db uid ≠ []) :
    ∃ pts c, getForecast o ml today db Cache.empty uid days model =
      .ok (pts, c, false) ∧ pts.length = days :=
  getForecast_fresh o ml today db uid days model ho htx

/-- Witness for C10 amended at a concrete input: one transaction,
horizon 31. -/
theorem C10_witness :
    Oracles.LengthOk oracleZero ∧ userTxs [txC10] 1 ≠ [] ∧
      (∃ pts c, getForecast oracleZero false 739100 [txC10] Cache.empty 1 31
        "linear" = .ok (pts, c, false) ∧ pts.length = 31) :=
  ⟨lengthOk_oracleZero, by decide,
    C10_amended oracleZero false 739100 [txC10] 1 31 "linear"
      lengthOk_oracleZero (by decide)⟩

/-! ## C3 -/

/-- Auxiliary fact: `cumsum` preserves length. -/
theorem cumsum_length (acc : ℚ) (l : List ℚ) : (cumsum acc l).length = l.length := by
  induction l generalizing acc with
  | nil => rfl
  | cons x xs ih => simp [cumsum, ih]

/-- The `i`-th partial sum produced by `cumsum` is the accumulator plus
the sum of the first `i+1` entries. -/
theorem cumsum_getD (acc : ℚ) (l : List ℚ) (i : Nat) (h : i < l.length) :
    (cumsum acc l).getD i 0 = acc + (l.take (i + 1)).sum := by
  induction l generalizing acc i with
  | nil => simp at h
  | cons x xs ih =>
    cases i with
    | zero => simp [cumsum]
    | succ j =>
      have hj : j < xs.length := by simpa using h
      simp only [cumsum, List.getD_cons_succ, List.take_succ_cons, List.sum_cons]
      rw [ih (acc + x) j hj]
      ring

/-- C3: on the Monte-Carlo path (ML available, ≥7 distinct dates) the
forecast returns, for each of the `days` future consecutive dates, the
pointwise mean across the 100 simulated paths, where path `p`'s value at
day `i` is the last known balance plus the cumulative sum of its first
`i+1` sampler draws, and the sampler is invoked with mean
`listMean (dailyDeltas …)` (the mean of the day-to-day delta series) and
variance `sampleVar (dailyDeltas …)` (0 when degenerate, σ = √variance). -/
theorem C3_montecarlo (o : Oracles) (today : Int) (txs : List Tx)
    (days : Nat) (h7 : 7 ≤ (runningSeries txs).length) :
    ∃ pts, forecastCached o true today txs days "mc" = .ok pts ∧
      pts.length = days ∧
      pts.map Prod.fst =
        (List.range days).map (fun i : Nat => lastDate txs + 1 + (i : Int)) ∧
      ∀ i : Nat, i < days →
        (pts.getD i (0, 0)).2 =
          ((List.range 100).map (fun p : Nat =>
            ((runningSeries txs).map Prod.snd).getLast?.getD 0 +
              ((List.range (i + 1)).map
                (o.normal (listMean (dailyDeltas ((runningSeries txs).map Prod.snd)))
                  (sampleVar (dailyDeltas ((runningSeries txs).map Prod.snd))) p)).sum)).sum
            / 100 := by
  unfold forecastCached
  dsimp only
  rw [if_neg (not_or.mpr ⟨by simp, by omega⟩ :
    ¬ (true = false ∨ (runningSeries txs).length < 7))]
  rw [if_neg (by decide : ¬ ("mc" : String) = "rf"),
    if_neg (by decide : ¬ ("mc" : String) = "catboost"),
    if_neg (by decide : ¬ ("mc" : String) = "neuralprophet"),
    if_pos (rfl : ("mc" : String) = "mc")]
  refine ⟨_, rfl, (zip_dates_spec _ days _ (by simp)).2,
    (zip_dates_spec _ days _ (by simp)).1, ?_⟩
  intro i hi
  set rs := (runningSeries txs).map Prod.snd with hrs
  set mu := listMean (dailyDeltas rs) with hmu
  set sq := sampleVar (dailyDeltas rs) with hsq
  set lastBal := rs.getLast?.getD 0 with hlb
  have hfd : ((List.range' 1 days).map
      (fun j : Nat => lastDate txs + (j : Int))).length = days := by simp
  have hpreds : ((List.range days).map (fun j : Nat =>
      (((List.range 100).map (fun p : Nat =>
        ((((List.range 100).map (fun p : Nat =>
          (cumsum 0 ((List.range days).map (o.normal mu sq p))).map
            (fun v => v + lastBal))).getD p []).getD j 0))).sum) / 100)).length
      = days := by simp
  -- the zipped point at i
  have hzip : ((((List.range' 1 days).map
        (fun j : Nat => lastDate txs + (j : Int))).zip
        ((List.range days).map (fun j : Nat =>
          (((List.range 100).map (fun p : Nat =>
            ((((List.range 100).map (fun p : Nat =>
              (cumsum 0 ((List.range days).map (o.normal mu sq p))).map
                (fun v => v + lastBal))).getD p []).getD j 0))).sum) / 100))).getD i
        (0, 0)).2 =
      (((List.range 100).map (fun p : Nat =>
        ((((List.range 100).map (fun p : Nat =>
          (cumsum 0 ((List.range days).map (o.normal mu sq p))).map
            (fun v => v + lastBal))).getD p []).getD i 0))).sum) / 100 := by
    rw [List.getD_eq_getElem _ _ (by rw [List.length_zip, hfd, hpreds]; omega)]
    rw [List.getElem_zip]
    simp
  rw [hzip]
  congr 1
  congr 1
  apply List.map_congr_left
  intro p hp
  have hp100 : p < 100 := List.mem_range.mp hp
  have hsims : (((List.range 100).map (fun p : Nat =>
      (cumsum 0 ((List.range days).map (o.normal mu sq p))).map
        (fun v => v + lastBal)))).getD p [] =
      (cumsum 0 ((List.range days).map (o.normal mu sq p))).map
        (fun v => v + lastBal) := by
    rw [List.getD_eq_getElem _ _ (by simpa using hp100)]
    simp
  rw [hsims]
  have hlen2 : i < ((cumsum 0 ((List.range days).map (o.normal mu sq p)))).length := by
    rw [cumsum_length]
    simpa using hi
  rw [List.getD_eq_getElem _ _ (by simpa using hlen2)]
  rw [List.getElem_map]
  rw [← List.getD_eq_getElem _ (0 : ℚ) hlen2]
  rw [cumsum_getD _ _ _ (by simpa using hi)]
  rw [← List.map_take, List.take_range]
  have : min (i + 1) days = i + 1 := by omega
  rw [this]
  ring

/-- Witness for C3 at a concrete input: the 7-date history `txsC2`,
horizon 4, trivial sampler. -/
theorem C3_witness :
    7 ≤ (runningSeries txsC2).length ∧
    (∃ pts, forecastCached oracleZero true 739300 txsC2 4 "mc" = .ok pts ∧
      pts.length = 4 ∧
      pts.map Prod.fst =
        (List.range 4).map (fun i : Nat => lastDate txsC2 + 1 + (i : Int)) ∧
      ∀ i : Nat, i < 4 →
        (pts.getD i (0, 0)).2 =
          ((List.range 100).map (fun p : Nat =>
            ((runningSeries txsC2).map Prod.snd).getLast?.getD 0 +
              ((List.range (i + 1)).map
                (oracleZero.normal
                  (listMean (dailyDeltas ((runningSeries txsC2).map Prod.snd)))
                  (sampleVar (dailyDeltas ((runningSeries txsC2).map Prod.snd))) p)).sum)).sum
            / 100) :=
  ⟨by decide, C3_montecarlo oracleZero 739300 txsC2 4 (by decide)⟩

/-! ## C4 -/

/-- Computes `max(t.tx_date for t in txs)`, as an option (none when empty). -/
def lastTsOf : List Tx → Option Int
  | [] => none
  | t :: r => some (r.foldl (fun m u => max m u.tx_date) t.tx_date)

/-- The cache key `get_forecast` would use for this request, if any. -/
def forecastKey (db : List Tx) (uid : Nat) (days : Nat) (model : String) :
    Option CKey :=
  (lastTsOf (userTxs db uid)).map (fun ts => (uid, days, model, ts))

/-- Looking up the key just put at the front of the cache hits it. -/
theorem lookup_cons_self (k : CKey) (v : List (Int × ℚ))
    (rest : List (CKey × List (Int × ℚ))) :
    Cache.lookup ⟨(k, v) :: rest⟩ k = some v := by
  simp [Cache.lookup, List.find?_cons_of_pos]

/-- Promoting the entry already at the front of a cache whose tail does
not mention its key leaves the cache unchanged. -/
theorem promote_eq_self (k : CKey) (v : List (Int × ℚ))
    (rest : List (CKey × List (Int × ℚ))) (h : ∀ e ∈ rest, ¬ e.1 = k) :
    Cache.promote ⟨(k, v) :: rest⟩ k v = ⟨(k, v) :: rest⟩ := by
  unfold Cache.promote
  congr 1
  rw [List.filter_cons_of_neg (by simp)]
  rw [List.filter_eq_self.mpr]
  intro e he
  simpa using h e he

/-- Every entry of the tail produced by `promote` or `store` has a key
different from the promoted/stored one. -/
theorem mem_filter_ne_key (k : CKey) (l : List (CKey × List (Int × ℚ)))
    (e : CKey × List (Int × ℚ))
    (he : e ∈ l.filter (fun e => !decide (e.1 = k))) : ¬ e.1 = k := by
  have := (List.mem_filter.mp he).2
  simpa using this

/-- Folding `max` over dates all below `x`, from an accumulator below
`x`, stays below `x`. -/
theorem foldl_max_lt (l : List Tx) (acc x : Int) (hacc : acc < x)
    (h : ∀ u ∈ l, u.tx_date < x) :
    l.foldl (fun m u => max m u.tx_date) acc < x := by
  induction l generalizing acc with
  | nil => exact hacc
  | cons u r ih =>
    simp only [List.foldl_cons]
    exact ih _ (max_lt hacc (h u (by simp))) (fun v hv => h v (by simp [hv]))

/-- Appending a transaction dated later than the whole list makes its
date the new latest timestamp. -/
theorem lastTsOf_append_gt (l : List Tx) (t : Tx)
    (h : ∀ u ∈ l, u.tx_date < t.tx_date) :
    lastTsOf (l ++ [t]) = some t.tx_date := by
  cases l with
  | nil => simp [lastTsOf]
  | cons t0 r =>
    simp only [List.cons_append, lastTsOf]
    congr 1
    rw [List.foldl_append]
    simp only [List.foldl_cons, List.foldl_nil]
    exact max_eq_right (le_of_lt (foldl_max_lt r t0.tx_date t.tx_date
      (h t0 (by simp)) (fun v hv => h v (by simp [hv]))))

/-- The latest timestamp of a list of transactions all dated before `x`
is below `x`. -/
theorem lastTsOf_lt (l : List Tx) (x : Int) (h : ∀ u ∈ l, u.tx_date < x)
    (ts : Int) (hts : lastTsOf l = some ts) : ts < x := by
  cases l with
  | nil => exact absurd hts (by simp [lastTsOf])
  | cons t0 r =>
    have : ts = r.foldl (fun m u => max m u.tx_date) t0.tx_date := by
      simpa [lastTsOf] using hts.symm
    rw [this]
    exact foldl_max_lt r t0.tx_date x (h t0 (by simp)) (fun v hv => h v (by simp [hv]))

/-- A user's transactions after appending one more of that user's. -/
theorem userTxs_append_own (db : List Tx) (t : Tx) (uid : Nat)
    (ht : t.user_id = uid) :
    userTxs (db ++ [t]) uid = userTxs db uid ++ [t] := by
  unfold userTxs
  rw [List.filter_append]
  congr 1
  simp [ht]

/-- C4 amended: (a) a second `forecast` call with identical
(user, horizon, model) on an unchanged database is a cache hit returning
the identical stored result and leaving the cache unchanged; (b) a new
transaction dated strictly after all of the user's existing ones changes
the cache key, so the stale entry cannot be returned for it.  (A
transaction whose date does not exceed the current maximum leaves the
key unchanged — see the counterexample — which is the part of the
original claim that fails.) -/
theorem C4_amended (o : Oracles) (ml : Bool) (today : Int) (db : List Tx)
    (c : Cache) (uid : Nat) (days : Nat) (model : String)
    (r : List (Int × ℚ)) (c1 : Cache) (hit : Bool)
    (h : getForecast o ml today db c uid days model = .ok (r, c1, hit)) :
    getForecast o ml today db c1 uid days model = .ok (r, c1, true) ∧
    ∀ t : Tx, t.user_id = uid →
      (∀ u ∈ userTxs db uid, u.tx_date < t.tx_date) →
      forecastKey (db ++ [t]) uid days model ≠ forecastKey db uid days model := by
  constructor
  · rcases hu : userTxs db uid with _ | ⟨t0, r0⟩
    · unfold getForecast at h
      rw [hu] at h
      exact absurd h (by simp)
    unfold getForecast at h ⊢
    rw [hu] at h ⊢
    dsimp only at h ⊢
    rcases hl : Cache.lookup c (uid, days, model,
        r0.foldl (fun m u => max m u.tx_date) t0.tx_date) with _ | v
    · -- first call was a miss: the entry was stored at the front
      rw [hl] at h
      dsimp only at h
      rcases hf : forecastCached o ml today (t0 :: r0) days model with e | v
      · rw [hf] at h
        exact absurd h (by simp)
      rw [hf] at h
      dsimp only at h
      simp only [Except.ok.injEq, Prod.mk.injEq] at h
      obtain ⟨hv, hc1, -⟩ := h
      subst hv
      have hstore : Cache.store c (uid, days, model,
          r0.foldl (fun m u => max m u.tx_date) t0.tx_date) v =
          ⟨((uid, days, model, r0.foldl (fun m u => max m u.tx_date) t0.tx_date), v) ::
            (c.entries.filter (fun e => !decide (e.1 = (uid, days, model,
              r0.foldl (fun m u => max m u.tx_date) t0.tx_date)))).take 31⟩ := by
        unfold Cache.store
        rw [List.take_succ_cons]
      rw [← hc1, hstore, lookup_cons_self]
      dsimp only
      rw [promote_eq_self _ _ _ (fun e he =>
        mem_filter_ne_key _ _ e (List.mem_of_mem_take he))]
    · -- first call was a hit: the entry was promoted to the front
      rw [hl] at h
      dsimp only at h
      simp only [Except.ok.injEq, Prod.mk.injEq] at h
      obtain ⟨hv, hc1, -⟩ := h
      subst hv
      have hpro : Cache.promote c (uid, days, model,
          r0.foldl (fun m u => max m u.tx_date) t0.tx_date) v =
          ⟨((uid, days, model, r0.foldl (fun m u => max m u.tx_date) t0.tx_date), v) ::
            c.entries.filter (fun e => !decide (e.1 = (uid, days, model,
              r0.foldl (fun m u => max m u.tx_date) t0.tx_date)))⟩ := rfl
      rw [← hc1, hpro, lookup_cons_self]
      dsimp only
      rw [promote_eq_self _ _ _ (fun e he => mem_filter_ne_key _ _ e he)]
  · intro t htu hlt
    unfold forecastKey
    rw [userTxs_append_own db t uid htu, lastTsOf_append_gt _ t hlt]
    rcases hts : lastTsOf (userTxs db uid) with _ | ts
    · simp
    · simp only [Option.map_some']
      intro hcontra
      have hlt' := lastTsOf_lt _ _ hlt ts hts
      have : t.tx_date = ts := by
        have := Option.some.inj hcontra
        simpa using congrArg (fun q => q.2.2.2) this
      omega

/-- User 1's first transaction (cache scenario). -/
def txC4a : Tx := ⟨1, 1, 739000, 10, "Food", false, none⟩

/-- User 1's second transaction, the latest-dated one (cache scenario). -/
def txC4b : Tx := ⟨2, 1, 739001, 20, "Food", false, none⟩

/-- A backdated transaction: dated 739000, not after the existing
maximum 739001, so the cache key's ordinal does not change. -/
def txC4c : Tx := ⟨3, 1, 739000, 100, "Shopping", false, none⟩

/-- The database at the first forecast call. -/
def dbC4old : List Tx := [txC4a, txC4b]

/-- The database after inserting the backdated transaction. -/
def dbC4 : List Tx := [txC4a, txC4b, txC4c]

/-- The forecast computed from `dbC4old`. -/
def ptsC4stale : List (Int × ℚ) := [(739100, 50), (739101, 70)]

/-- The forecast a fresh computation on `dbC4` produces. -/
def ptsC4fresh : List (Int × ℚ) := [(739100, 150), (739101, 170)]

/-- The cache state after the first call. -/
def cacheC4 : Cache := ⟨[((1, 2, "linear", 739001), ptsC4stale)]⟩

/-- The aggregated series of the two-transaction history. -/
theorem runningC4old : runningSeries [txC4a, txC4b] = [(739000, 10), (739001, 30)] := by
  norm_num [runningSeries, sortedDates, runningAt, sumAmt, txC4a, txC4b,
    List.dedup_cons_of_not_mem, List.insertionSort, List.orderedInsert]

/-- The first-call forecast computation on the two-transaction history. -/
theorem forecastC4old :
    forecastCached oracleZero false 739100 [txC4a, txC4b] 2 "linear" =
      .ok ptsC4stale := by
  unfold forecastCached
  rw [if_pos (Or.inl rfl)]
  rw [runningC4old]
  norm_num [ptsC4stale, List.range_succ]

/-- The first call: a miss that stores the computed forecast. -/
theorem getForecastC4_first :
    getForecast oracleZero false 739100 dbC4old Cache.empty 1 2 "linear" =
      .ok (ptsC4stale, cacheC4, false) := by
  have hu : userTxs dbC4old 1 = [txC4a, txC4b] := by
    norm_num [userTxs, dbC4old, txC4a, txC4b]
  unfold getForecast
  rw [hu]
  dsimp only
  rw [show Cache.lookup Cache.empty (1, 2, "linear",
      List.foldl (fun m u => max m u.tx_date) txC4a.tx_date [txC4b]) = none from rfl]
  rw [forecastC4old]
  dsimp only
  norm_num [Cache.store, Cache.empty, cacheC4, txC4a, txC4b]

/-- The aggregated series after the backdated insertion. -/
theorem runningC4new :
    runningSeries [txC4a, txC4b, txC4c] = [(739000, 110), (739001, 130)] := by
  norm_num [runningSeries, sortedDates, runningAt, sumAmt, txC4a, txC4b, txC4c,
    List.dedup_cons_of_not_mem, List.insertionSort, List.orderedInsert]

/-- C4 counterexample: after the first call cached `ptsC4stale` for
user 1, inserting the backdated transaction `txC4c` (new data, but the
latest-date ordinal — and hence the cache key — is unchanged, last
conjunct) makes the next identical call a cache HIT that returns the
stale result, while a fresh computation on the current data returns
`ptsC4fresh ≠ ptsC4stale`: a cache hit CAN return a result computed for
different underlying data. -/
theorem C4_counterexample :
    getForecast oracleZero false 739100 dbC4 cacheC4 1 2 "linear" =
      .ok (ptsC4stale, cacheC4, true) ∧
    forecastCached oracleZero false 739100 (userTxs dbC4 1) 2 "linear" =
      .ok ptsC4fresh ∧
    ptsC4stale ≠ ptsC4fresh ∧
    forecastKey dbC4 1 2 "linear" = forecastKey dbC4old 1 2 "linear" := by
  have hu2 : userTxs dbC4 1 = [txC4a, txC4b, txC4c] := by
    norm_num [userTxs, dbC4, txC4a, txC4b, txC4c]
  refine ⟨?_, ?_, ?_, ?_⟩
  · unfold getForecast
    rw [hu2]
    dsimp only
    rw [show Cache.lookup cacheC4 (1, 2, "linear",
        List.foldl (fun m u => max m u.tx_date) txC4a.tx_date [txC4b, txC4c]) =
      some ptsC4stale from rfl]
    dsimp only
    norm_num [Cache.promote, cacheC4, txC4a, txC4b, txC4c]
  · rw [hu2]
    unfold forecastCached
    rw [if_pos (Or.inl rfl)]
    rw [runningC4new]
    norm_num [ptsC4fresh, List.range_succ]
  · norm_num [ptsC4stale, ptsC4fresh]
  · rw [forecastKey, forecastKey, hu2]
    have hu1 : userTxs dbC4old 1 = [txC4a, txC4b] := by
      norm_num [userTxs, dbC4old, txC4a, txC4b]
    rw [hu1]
    norm_num [lastTsOf, txC4a, txC4b, txC4c]

/-- Witness for C4 amended at a concrete input: the first call of the
cache scenario. -/
theorem C4_witness :
    (getForecast oracleZero false 739100 dbC4old Cache.empty 1 2 "linear" =
      .ok (ptsC4stale, cacheC4, false)) ∧
    (getForecast oracleZero false 739100 dbC4old cacheC4 1 2 "linear" =
        .ok (ptsC4stale, cacheC4, true) ∧
      ∀ t : Tx, t.user_id = 1 →
        (∀ u ∈ userTxs dbC4old 1, u.tx_date < t.tx_date) →
        forecastKey (dbC4old ++ [t]) 1 2 "linear" ≠
          forecastKey dbC4old 1 2 "linear") :=
  ⟨getForecastC4_first,
    C4_amended oracleZero false 739100 dbC4old Cache.empty 1 2 "linear"
      ptsC4stale cacheC4 false getForecastC4_first⟩

/-! ## C9: health-score bounds -/

/-- Clamping with `max a (min b ·)` lands in `[a, b]`. -/
theorem clamp_mem {α : Type} [LinearOrder α] (a b x : α) (hab : a ≤ b) :
    a ≤ max a (min b x) ∧ max a (min b x) ≤ b :=
  ⟨le_max_left _ _, max_le hab (min_le_left _ _)⟩

/-- The mean of a nonempty list of rationals each in `[0, 100]` is in
`[0, 100]`. -/
theorem listAvg_mem (l : List ℚ) (hne : l ≠ [])
    (h : ∀ x ∈ l, 0 ≤ x ∧ x ≤ 100) :
    0 ≤ l.sum / l.length ∧ l.sum / l.length ≤ 100 := by
  have hlen : 0 < (l.length : ℚ) := by
    have := List.length_pos.mpr hne
    exact_mod_cast this
  constructor
  · exact div_nonneg (List.sum_nonneg (fun x hx => (h x hx).1)) (le_of_lt hlen)
  · rw [div_le_iff₀ hlen]
    calc l.sum ≤ l.length • (100 : ℚ) :=
          List.sum_le_card_nsmul l 100 (fun x hx => (h x hx).2)
      _ = 100 * l.length := by rw [nsmul_eq_mul]; ring

/-- Total absolute amounts are nonnegative. -/
theorem sumAbs_nonneg (l : List Tx) : 0 ≤ sumAbs l := by
  exact List.sum_nonneg (fun x hx => by
    obtain ⟨t, -, ht⟩ := List.mem_map.mp hx
    exact ht ▸ abs_nonneg t.amount)

/-- The budget-adherence sub-score is within [0, 100]. -/
theorem budgetAdherence_mem (cal : Calendar) (today : Int)
    (goals : List BudgetGoal) (db : List Tx) (uid : Nat) :
    0 ≤ budgetAdherence cal today goals db uid ∧
      budgetAdherence cal today goals db uid ≤ 100 := by
  unfold budgetAdherence
  dsimp only
  split
  · norm_num
  split
  · norm_num
  · rename_i hgs hsc
    apply listAvg_mem _ (fun he => hsc (by rw [he]; rfl))
    intro x hx
    obtain ⟨g, -, hg⟩ := List.mem_filterMap.mp hx
    split_ifs at hg with hpos hsp
    · obtain rfl := Option.some.inj hg
      constructor
      · exact le_min (by norm_num)
          (le_of_lt (mul_pos (div_pos hpos hsp) (by norm_num)))
      · exact min_le_left _ _
    · obtain rfl := Option.some.inj hg
      norm_num

/-- The savings-rate sub-score is within [0, 100]. -/
theorem savingsRate_mem (today : Int) (db : List Tx) (uid : Nat) :
    0 ≤ savingsRate today db uid ∧ savingsRate today db uid ≤ 100 := by
  unfold savingsRate
  dsimp only
  split
  · exact clamp_mem 0 100 _ (by norm_num)
  split
  · norm_num
  · norm_num

/-- The spending-consistency sub-score is within [0, 100]. -/
theorem spendingConsistency_mem (today : Int) (db : List Tx) (uid : Nat) :
    0 ≤ spendingConsistency today db uid ∧
      spendingConsistency today db uid ≤ 100 := by
  unfold spendingConsistency
  dsimp only
  split
  · norm_num
  split
  · exact clamp_mem 0 100 _ (by norm_num)
  · norm_num

/-- A single category's expense total never exceeds the all-category
total. -/
theorem catAmt_le_total (l : List Tx) (p : Tx → Bool) :
    sumAbs (l.filter p) ≤ sumAbs l := by
  unfold sumAbs
  apply List.Sublist.sum_le_sum ((List.filter_sublist l).map _)
  intro a ha
  obtain ⟨t, -, ht⟩ := List.mem_map.mp ha
  exact ht ▸ abs_nonneg t.amount

/-- The category-balance sub-score is within [0, 100]: the Shannon
entropy term is nonnegative because every category proportion lies in
(0, 1], and the `min 100` clamp bounds it above. -/
theorem categoryBalance_mem (today : Int) (db : List Tx) (uid : Nat) :
    0 ≤ categoryBalance today db uid ∧ categoryBalance today db uid ≤ 100 := by
  unfold categoryBalance
  dsimp only
  split
  · norm_num
  split
  · norm_num
  split
  · rename_i h10 hterm hmax
    push_neg at hterm
    obtain ⟨htot0, -⟩ := hterm
    have htotpos : 0 < sumAbs (balanceTxs today db uid) :=
      lt_of_le_of_ne (sumAbs_nonneg _) (Ne.symm htot0)
    constructor
    · apply le_min (by norm_num)
      apply mul_nonneg _ (by norm_num)
      apply div_nonneg _ (le_of_lt hmax)
      apply List.sum_nonneg
      intro x hx
      obtain ⟨lab, -, hlab⟩ := List.mem_map.mp hx
      rw [← hlab]
      split
      · rename_i hppos
        have hle1 : ((sumAbs ((balanceTxs today db uid).filter
            (fun t => t.label == lab)) / sumAbs (balanceTxs today db uid) : ℚ) : ℝ) ≤ 1 := by
          have : sumAbs ((balanceTxs today db uid).filter
              (fun t => t.label == lab)) / sumAbs (balanceTxs today db uid) ≤ 1 :=
            (div_le_one htotpos).mpr (catAmt_le_total _ _)
          exact_mod_cast this
        have hlog : Real.log ((sumAbs ((balanceTxs today db uid).filter
            (fun t => t.label == lab)) / sumAbs (balanceTxs today db uid) : ℚ) : ℝ) ≤ 0 :=
          Real.log_nonpos (le_of_lt hppos) hle1
        nlinarith
      · exact le_refl 0
    · exact min_le_left _ _
  · norm_num

/-- C9: all four sub-scores of the financial health score, and the
weighted composite (weights 0.3/0.2/0.3/0.2), lie within [0, 100] for
every input. -/
theorem C9_health_score_bounds (cal : Calendar) (today : Int) (db : List Tx)
    (goals : List BudgetGoal) (uid : Nat) (prior : Option ℝ) :
    (0 ≤ (calculateFinancialHealthScore cal today db goals uid prior).budget_adherence ∧
      (calculateFinancialHealthScore cal today db goals uid prior).budget_adherence ≤ 100) ∧
    (0 ≤ (calculateFinancialHealthScore cal today db goals uid prior).spending_consistency ∧
      (calculateFinancialHealthScore cal today db goals uid prior).spending_consistency ≤ 100) ∧
    (0 ≤ (calculateFinancialHealthScore cal today db goals uid prior).savings_rate ∧
      (calculateFinancialHealthScore cal today db goals uid prior).savings_rate ≤ 100) ∧
    (0 ≤ (calculateFinancialHealthScore cal today db goals uid prior).category_balance ∧
      (calculateFinancialHealthScore cal today db goals uid prior).category_balance ≤ 100) ∧
    (0 ≤ (calculateFinancialHealthScore cal today db goals uid prior).score ∧
      (calculateFinancialHealthScore cal today db goals uid prior).score ≤ 100) := by
  obtain ⟨h1, h2⟩ := budgetAdherence_mem cal today goals db uid
  obtain ⟨h3, h4⟩ := spendingConsistency_mem today db uid
  obtain ⟨h5, h6⟩ := savingsRate_mem today db uid
  obtain ⟨h7, h8⟩ := categoryBalance_mem today db uid
  have e1 : (calculateFinancialHealthScore cal today db goals uid prior).budget_adherence =
      budgetAdherence cal today goals db uid := rfl
  have e2 : (calculateFinancialHealthScore cal today db goals uid prior).spending_consistency =
      spendingConsistency today db uid := rfl
  have e3 : (calculateFinancialHealthScore cal today db goals uid prior).savings_rate =
      savingsRate today db uid := rfl
  have e4 : (calculateFinancialHealthScore cal today db goals uid prior).category_balance =
      categoryBalance today db uid := rfl
  have e5 : (calculateFinancialHealthScore cal today db goals uid prior).score =
      ((budgetAdherence cal today goals db uid : ℚ) : ℝ) * (3 / 10) +
        spendingConsistency today db uid * (2 / 10) +
        ((savingsRate today db uid : ℚ) : ℝ) * (3 / 10) +
        categoryBalance today db uid * (2 / 10) := rfl
  have c1 : (0 : ℝ) ≤ ((budgetAdherence cal today goals db uid : ℚ) : ℝ) := by
    exact_mod_cast h1
  have c2 : ((budgetAdherence cal today goals db uid : ℚ) : ℝ) ≤ 100 := by
    exact_mod_cast h2
  have c5 : (0 : ℝ) ≤ ((savingsRate today db uid : ℚ) : ℝ) := by exact_mod_cast h5
  have c6 : ((savingsRate today db uid : ℚ) : ℝ) ≤ 100 := by exact_mod_cast h6
  refine ⟨⟨by rw [e1]; exact h1, by rw [e1]; exact h2⟩,
    ⟨by rw [e2]; exact h3, by rw [e2]; exact h4⟩,
    ⟨by rw [e3]; exact h5, by rw [e3]; exact h6⟩,
    ⟨by rw [e4]; exact h7, by rw [e4]; exact h8⟩,
    ⟨by rw [e5]; linarith, by rw [e5]; linarith⟩⟩

/-! ## C8 -/

/-- Gregorian calendar facts for the October-2024 dates used by the C8
concrete scenario: the month of ordinal 739174 (2024-10-15) starts at
739160 (2024-10-01) and ends at 739190 (2024-10-31), and 739174 is the
15th of its month.  Only these points are queried by the C8 inputs. -/
def calOct2024 : Calendar := ⟨fun _ => 739160, fun _ => 739190, fun _ => 15⟩

/-- A current-month budget goal of 100 for user 1 (C8 scenario). -/
def goalC8 : BudgetGoal := ⟨1, 739160, 100⟩

/-- C8 counterexample: a user with ZERO transactions but one (positive)
budget goal for the current month gets budget-adherence 100 — no
spending means perfect adherence — not the neutral 50, so not every
component sits at its documented neutral value for every
zero-transaction user. -/
theorem C8_counterexample :
    userTxs [] 1 = [] ∧
    (calculateFinancialHealthScore calOct2024 739174 [] [goalC8] 1
      none).budget_adherence = 100 ∧
    (calculateFinancialHealthScore calOct2024 739174 [] [goalC8] 1
      none).budget_adherence ≠ 50 := by
  have e1 : (calculateFinancialHealthScore calOct2024 739174 [] [goalC8] 1
      none).budget_adherence = budgetAdherence calOct2024 739174 [goalC8] [] 1 := rfl
  have hval : budgetAdherence calOct2024 739174 [goalC8] [] 1 = 100 := by
    norm_num [budgetAdherence, userGoals, userTxs, goalC8, calOct2024, sumAbs,
      List.filterMap_cons]
  refine ⟨rfl, by rw [e1, hval], by rw [e1, hval]; norm_num⟩

/-- C8 amended: for a user with zero transactions AND no budget goals,
`forecast` fails with the no-transactions error (404 "No transactions"),
`generate_all_insights` returns the empty list, and the health score has
every component at the neutral 50 and composite 50 — none of these
raising.  (With a budget goal present the budget-adherence component is
not neutral: see the counterexample.) -/
theorem C8_amended (o : Oracles) (ml : Bool) (cal : Calendar) (today : Int)
    (db : List Tx) (goals : List BudgetGoal) (uid : Nat) (days : Nat)
    (model : String) (c : Cache) (prior : Option ℝ)
    (htx : userTxs db uid = []) (hg : userGoals goals uid = []) :
    getForecast o ml today db c uid days model = .error .noTransactions ∧
    generateAllInsights cal today db goals uid = [] ∧
    (calculateFinancialHealthScore cal today db goals uid prior).budget_adherence = 50 ∧
    (calculateFinancialHealthScore cal today db goals uid prior).spending_consistency = 50 ∧
    (calculateFinancialHealthScore cal today db goals uid prior).savings_rate = 50 ∧
    (calculateFinancialHealthScore cal today db goals uid prior).category_balance = 50 ∧
    (calculateFinancialHealthScore cal today db goals uid prior).score = 50 := by
  have hba : budgetAdherence cal today goals db uid = 50 := by
    simp [budgetAdherence, hg]
  have hwk : weeklySpending today db uid = List.replicate 8 0 := by
    simp [weeklySpending, htx, sumAbs, List.eq_replicate_iff]
  have hsc : spendingConsistency today db uid = 50 := by
    unfold spendingConsistency
    rw [hwk]
    norm_num [listMean]
  have hsr : savingsRate today db uid = 50 := by
    simp [savingsRate, htx, sumAmt]
  have hcb : categoryBalance today db uid = 50 := by
    simp [categoryBalance, balanceTxs, htx]
  refine ⟨?_, ?_, hba, hsc, hsr, hcb, ?_⟩
  · unfold getForecast
    rw [htx]
  · unfold generateAllInsights
    rw [show detectAnomalies today db uid = [] by
      simp [detectAnomalies, windowTxs, htx]]
    rw [show generateSavingsOpportunities today db uid = [] by
      simp [generateSavingsOpportunities, htx, labelsOf]]
    rw [show generateAchievements cal today db uid = [] by
      simp [generateAchievements, htx, labelsOf]]
    rw [show generatePredictions cal today goals db uid = [] by
      simp [generatePredictions, currentGoal, hg]]
    rw [show generateRecommendations cal today goals db uid = [] by
      simp [generateRecommendations, currentGoal, hg, htx]]
    rfl
  · have e5 : (calculateFinancialHealthScore cal today db goals uid prior).score =
        ((budgetAdherence cal today goals db uid : ℚ) : ℝ) * (3 / 10) +
          spendingConsistency today db uid * (2 / 10) +
          ((savingsRate today db uid : ℚ) : ℝ) * (3 / 10) +
          categoryBalance today db uid * (2 / 10) := rfl
    rw [e5, hba, hsc, hsr, hcb]
    push_cast
    norm_num

/-- Witness for C8 amended at a concrete input: an entirely fresh user
(no transactions, no goals). -/
theorem C8_witness :
    (userTxs ([] : List Tx) 1 = [] ∧ userGoals ([] : List BudgetGoal) 1 = []) ∧
    (getForecast oracleZero true 739174 [] Cache.empty 1 7 "linear" =
        .error .noTransactions ∧
      generateAllInsights calOct2024 739174 [] [] 1 = [] ∧
      (calculateFinancialHealthScore calOct2024 739174 [] [] 1 none).budget_adherence = 50 ∧
      (calculateFinancialHealthScore calOct2024 739174 [] [] 1 none).spending_consistency = 50 ∧
      (calculateFinancialHealthScore calOct2024 739174 [] [] 1 none).savings_rate = 50 ∧
      (calculateFinancialHealthScore calOct2024 739174 [] [] 1 none).category_balance = 50 ∧
      (calculateFinancialHealthScore calOct2024 739174 [] [] 1 none).score = 50) :=
  ⟨⟨rfl, rfl⟩,
    C8_amended oracleZero true calOct2024 739174 [] [] 1 7 "linear" Cache.empty
      none rfl rfl⟩
